import Mathlib

/-!
Verification of the repetition-detector subsystem of the Motion4Good fitness
app (`src/backend/script.py`).  The Python detector is shallowly embedded:

* joint positions are rational 2D points, the geometric angle function
  `calculate_angle` is the exact real-valued formula of the source
  (`acos(clip(dot/( |ba||bc| + 1e-6 ), -1, 1))` in degrees);
* the per-frame classifiers (`detect_jumping_jack`, `detect_squat`,
  `detect_high_knees`) are embedded over the already-computed joint angles,
  in degrees, as rationals: the source computes the angles with
  `calculate_angle` and then only compares them against integral thresholds,
  so threshold logic over `ℚ` is faithful and keeps the step function
  executable;
* the file-backed selector (`target_exercise.json`) is modelled by a
  `SelectorRead` input to each frame: a successful read carries the parsed
  `target` string, and the absent-file / raised-exception paths are the
  other two constructors;
* the rep-counter store (`rep_counter.json`) is modelled by the in-memory
  counters (the detector is the sole writer at the detection layer, so the
  `load_counts` re-read inside `process_frame` returns the counters it last
  wrote).

States, counters and the frame-controller logic of `ExerciseDetector` are
embedded field by field with the source's names.
-/

attribute [local semireducible] Rat.add Rat.mul Rat.inv

/- The subset of the MediaPipe pose-landmark indices the detector uses
(`PoseLandmark` in the source). -/
namespace PoseLandmark

def LEFT_SHOULDER : Nat := 11
def RIGHT_SHOULDER : Nat := 12
def LEFT_ELBOW : Nat := 13
def RIGHT_ELBOW : Nat := 14
def LEFT_WRIST : Nat := 15
def RIGHT_WRIST : Nat := 16
def LEFT_HIP : Nat := 23
def RIGHT_HIP : Nat := 24
def LEFT_KNEE : Nat := 25
def RIGHT_KNEE : Nat := 26
def LEFT_ANKLE : Nat := 27
def RIGHT_ANKLE : Nat := 28

end PoseLandmark

/-- `ExerciseType` enum of the source; the string values are used by
`parse_target` below. -/
inductive ExerciseType where
  | jumping_jack
  | squat
  | high_knees
  | none
deriving DecidableEq, Repr

/-- `JumpingJackState` enum of the source. -/
inductive JumpingJackState where
  | neutral
  | arms_up
deriving DecidableEq, Repr

/-- `SquatState` enum of the source. -/
inductive SquatState where
  | standing
  | squatting
deriving DecidableEq, Repr

/-- One entry of the per-frame landmark list: a normalized 2D position and
an optional visibility score (`None` models a landmark object that has no
`visibility` attribute, which the source tests with `hasattr`). -/
structure Landmark where
  x : ℚ
  y : ℚ
  visibility : Option ℚ
deriving DecidableEq, Repr

/-- The rep-counter mapping `{"jumping_jacks": _, "squats": _, "high_knees": _}`. -/
structure RepCounts where
  jumping_jacks : Nat
  squats : Nat
  high_knees : Nat
deriving DecidableEq, Repr

/-- `self.rep_counts[self.target_exercise.value] += 1`.  The source dict has
no `"none"` key; that branch is unreachable because no classifier runs when
the target is `NONE`. -/
def RepCounts.increment (c : RepCounts) (e : ExerciseType) : RepCounts :=
  match e with
  | .jumping_jack => { c with jumping_jacks := c.jumping_jacks + 1 }
  | .squat => { c with squats := c.squats + 1 }
  | .high_knees => { c with high_knees := c.high_knees + 1 }
  | .none => c

/-- Outcome of one attempt to read `target_exercise.json`
(`load_target_exercise` in the source): the file exists and parses with the
given `"target"` value, the file is absent, or the read/parse raises. -/
inductive SelectorRead where
  | ok (target : String)
  | absent
  | failure
deriving DecidableEq, Repr

/-- The mutable state of the `ExerciseDetector` dataclass. -/
structure ExerciseDetector where
  target_exercise : ExerciseType
  jumping_jack_state : JumpingJackState
  squat_state : SquatState
  left_knee_was_up : Bool
  right_knee_was_up : Bool
  rep_counts : RepCounts
  cooldown_frames : Nat
  reload_counter : Nat
  warning_counter : Nat
deriving DecidableEq, Repr

/-- `COOLDOWN_DURATION: int = 10`. -/
def COOLDOWN_DURATION : Nat := 10

/-- `RELOAD_INTERVAL: int = 30`. -/
def RELOAD_INTERVAL : Nat := 30

/-- `WARNING_INTERVAL: int = 30`. -/
def WARNING_INTERVAL : Nat := 30

/-- The string-to-enum conversion inside `load_target_exercise`; any
unrecognised string falls through to `SQUAT`. -/
def parse_target (target : String) : ExerciseType :=
  if target = "jumping_jacks" then .jumping_jack
  else if target = "squats" then .squat
  else if target = "high_knees" then .high_knees
  else .squat

/-- `load_target_exercise`: on a successful read the parsed value is
installed; if the file is absent the source writes a default file and sets
`SQUAT`; if the read raises, the `except` handler prints the error and sets
`SQUAT`. -/
def load_target_exercise (d : ExerciseDetector) (sel : SelectorRead) : ExerciseDetector :=
  match sel with
  | .ok target => { d with target_exercise := parse_target target }
  | .absent => { d with target_exercise := .squat }
  | .failure => { d with target_exercise := .squat }

/-- The `landmark_names` table of `check_landmarks_visible`, with the
`f"Landmark {idx}"` fallback of `landmark_names.get`. -/
def landmark_name (idx : Nat) : String :=
  if idx = PoseLandmark.LEFT_SHOULDER then "Left Shoulder"
  else if idx = PoseLandmark.RIGHT_SHOULDER then "Right Shoulder"
  else if idx = PoseLandmark.LEFT_ELBOW then "Left Elbow"
  else if idx = PoseLandmark.RIGHT_ELBOW then "Right Elbow"
  else if idx = PoseLandmark.LEFT_WRIST then "Left Wrist"
  else if idx = PoseLandmark.RIGHT_WRIST then "Right Wrist"
  else if idx = PoseLandmark.LEFT_HIP then "Left Hip"
  else if idx = PoseLandmark.RIGHT_HIP then "Right Hip"
  else if idx = PoseLandmark.LEFT_KNEE then "Left Knee"
  else if idx = PoseLandmark.RIGHT_KNEE then "Right Knee"
  else if idx = PoseLandmark.LEFT_ANKLE then "Left Ankle"
  else if idx = PoseLandmark.RIGHT_ANKLE then "Right Ankle"
  else s!"Landmark {idx}"

/-- The loop body of `check_landmarks_visible` for one required index:
an index past the end of the list is missing; a present landmark is missing
exactly when it has a `visibility` attribute below the threshold. -/
def landmark_missing (landmarks : List Landmark) (min_visibility : ℚ) (idx : Nat) : Bool :=
  if h : idx < landmarks.length then
    match (landmarks.get ⟨idx, h⟩).visibility with
    | some v => decide (v < min_visibility)
    | Option.none => false
  else true

/-- `check_landmarks_visible`: returns `(all_visible, missing_names)`.  The
source appends the names in required-index order, which `filter` + `map`
preserves. -/
def check_landmarks_visible (landmarks : List Landmark) (required_indices : List Nat)
    (min_visibility : ℚ) : Bool × List String :=
  let missing := (required_indices.filter (landmark_missing landmarks min_visibility)).map landmark_name
  (missing.isEmpty, missing)

/-- `detect_jumping_jack`, over the two shoulder angles
(`calculate_angle(hip, shoulder, elbow)` per side, in degrees).  The source
also computes two elbow angles but never uses them.  Returns the new state
and the `rep_completed` flag. -/
def detect_jumping_jack (st : JumpingJackState)
    (left_shoulder_angle right_shoulder_angle : ℚ) : JumpingJackState × Bool :=
  if st = .neutral ∧ left_shoulder_angle < 100 ∧ right_shoulder_angle < 100 then
    (.arms_up, false)
  else if st = .arms_up ∧ left_shoulder_angle > 140 ∧ right_shoulder_angle > 140 then
    (.neutral, true)
  else
    (st, false)

/-- `detect_squat`, over the two knee angles
(`calculate_angle(hip, knee, ankle)` per side, in degrees).  Returns the new
state and the `rep_completed` flag. -/
def detect_squat (st : SquatState) (left_knee_angle right_knee_angle : ℚ) : SquatState × Bool :=
  let avg_knee_angle := (left_knee_angle + right_knee_angle) / 2
  if st = .standing ∧ avg_knee_angle < 120 then
    (.squatting, false)
  else if st = .squatting ∧ avg_knee_angle > 160 then
    (.standing, true)
  else
    (st, false)

/-- `detect_high_knees`, over the two knee angles.  Each leg runs its own
up/down cycle (thresholds 90 and 140); the source sets the single
`rep_completed` variable from whichever leg completes, so the result flag is
the disjunction of the per-leg completions.  Returns
`(left_knee_was_up, right_knee_was_up, rep_completed)`. -/
def detect_high_knees (left_knee_was_up right_knee_was_up : Bool)
    (left_angle right_angle : ℚ) : Bool × Bool × Bool :=
  let left :=
    if left_angle < 90 ∧ left_knee_was_up = false then (true, false)
    else if left_angle > 140 ∧ left_knee_was_up = true then (false, true)
    else (left_knee_was_up, false)
  let right :=
    if right_angle < 90 ∧ right_knee_was_up = false then (true, false)
    else if right_angle > 140 ∧ right_knee_was_up = true then (false, true)
    else (right_knee_was_up, false)
  (left.1, right.1, left.2 || right.2)

/-- The `required_landmarks` dict of `process_frame`; `NONE` has no entry
(`self.target_exercise in required_landmarks` is false). -/
def required_landmarks (e : ExerciseType) : Option (List Nat) :=
  match e with
  | .jumping_jack => some [PoseLandmark.LEFT_SHOULDER, PoseLandmark.RIGHT_SHOULDER,
      PoseLandmark.LEFT_ELBOW, PoseLandmark.RIGHT_ELBOW,
      PoseLandmark.LEFT_WRIST, PoseLandmark.RIGHT_WRIST,
      PoseLandmark.LEFT_HIP, PoseLandmark.RIGHT_HIP]
  | .squat => some [PoseLandmark.LEFT_HIP, PoseLandmark.RIGHT_HIP,
      PoseLandmark.LEFT_KNEE, PoseLandmark.RIGHT_KNEE,
      PoseLandmark.LEFT_ANKLE, PoseLandmark.RIGHT_ANKLE]
  | .high_knees => some [PoseLandmark.LEFT_HIP, PoseLandmark.RIGHT_HIP,
      PoseLandmark.LEFT_KNEE, PoseLandmark.RIGHT_KNEE,
      PoseLandmark.LEFT_ANKLE, PoseLandmark.RIGHT_ANKLE]
  | .none => Option.none

/-- The state reset performed by `process_frame` when the reloaded target
differs from the old one (lines 353–357 of the source). -/
def reset_exercise_states (d : ExerciseDetector) : ExerciseDetector :=
  { d with jumping_jack_state := .neutral, squat_state := .standing,
           left_knee_was_up := false, right_knee_was_up := false }

/-- The periodic-reload block of `process_frame`, entered after
`reload_counter` has been incremented: when the counter has reached
`RELOAD_INTERVAL` the selector is re-read, the per-exercise states are reset
if the target changed, and the counter returns to 0. -/
def reload_step (d : ExerciseDetector) (sel : SelectorRead) : ExerciseDetector :=
  if d.reload_counter ≥ RELOAD_INTERVAL then
    let old_target := d.target_exercise
    let d2 := load_target_exercise d sel
    let d3 := if old_target ≠ d2.target_exercise then reset_exercise_states d2 else d2
    { d3 with reload_counter := 0 }
  else d

/-- The rep-completion tail of `process_frame`: re-read the persisted
counters (modelled as the in-memory ones, see the module docstring),
increment the active exercise's counter, and arm the cooldown (3 frames for
high knees, `COOLDOWN_DURATION` otherwise). -/
def count_rep (d : ExerciseDetector) : ExerciseDetector :=
  let counts := d.rep_counts.increment d.target_exercise
  let cd : Nat := if d.target_exercise = .high_knees then 3 else COOLDOWN_DURATION
  { d with rep_counts := counts, cooldown_frames := cd }

/-- The joint angles of one frame, as `calculate_angle` produces them from
the landmark positions (degrees). -/
structure FrameAngles where
  left_shoulder_angle : ℚ
  right_shoulder_angle : ℚ
  left_knee_angle : ℚ
  right_knee_angle : ℚ
deriving DecidableEq, Repr

/-- The classifier dispatch of `process_frame` (lines 399–419): run the
detector of the active exercise, commit its new state, and on a completed
rep update the counters and the cooldown. -/
def classify_step (d : ExerciseDetector) (angles : FrameAngles) : ExerciseDetector :=
  match d.target_exercise with
  | .jumping_jack =>
      let r := detect_jumping_jack d.jumping_jack_state
        angles.left_shoulder_angle angles.right_shoulder_angle
      let d2 := { d with jumping_jack_state := r.1 }
      if r.2 then count_rep d2 else d2
  | .squat =>
      let r := detect_squat d.squat_state angles.left_knee_angle angles.right_knee_angle
      let d2 := { d with squat_state := r.1 }
      if r.2 then count_rep d2 else d2
  | .high_knees =>
      let r := detect_high_knees d.left_knee_was_up d.right_knee_was_up
        angles.left_knee_angle angles.right_knee_angle
      let d2 := { d with left_knee_was_up := r.1, right_knee_was_up := r.2.1 }
      if r.2.2 then count_rep d2 else d2
  | .none => d

/-- The visibility gate of `process_frame` (lines 384–397) followed by the
classifier dispatch: when the active exercise has required landmarks and one
is missing, bump the throttled warning counter and stop; when all are
visible, clear the warning counter and classify.  A `NONE` target has no
entry in the `required_landmarks` dict, so the gate is skipped (and the
warning counter left alone) and the classifier chain falls through. -/
def gate_step (d : ExerciseDetector) (landmarks : List Landmark)
    (angles : FrameAngles) : ExerciseDetector :=
  match required_landmarks d.target_exercise with
  | some req =>
      let vis := check_landmarks_visible landmarks req (1/2)
      if vis.1 = false then
        let d3 := { d with warning_counter := d.warning_counter + 1 }
        if d3.warning_counter ≥ WARNING_INTERVAL then { d3 with warning_counter := 0 } else d3
      else
        classify_step { d with warning_counter := 0 } angles
  | Option.none => classify_step d angles

/-- `process_frame`: cooldown gate, periodic selector reload, visibility
gate with throttled warning, then classification.  `landmarks` is the raw
per-frame landmark list (used by the visibility gate), `angles` the joint
angles computed from it, `sel` the selector-file read the reload would
perform this frame. -/
def process_frame (d : ExerciseDetector) (landmarks : List Landmark)
    (angles : FrameAngles) (sel : SelectorRead) : ExerciseDetector :=
  if d.cooldown_frames > 0 then
    { d with cooldown_frames := d.cooldown_frames - 1 }
  else
    gate_step (reload_step { d with reload_counter := d.reload_counter + 1 } sel)
      landmarks angles

/-- One frame of input to the detector loop. -/
structure FrameInput where
  landmarks : List Landmark
  angles : FrameAngles
  sel : SelectorRead

/-- The per-frame loop of `main`, restricted to the detector: fold
`process_frame` over a list of frames. -/
def run_frames (d : ExerciseDetector) (fs : List FrameInput) : ExerciseDetector :=
  fs.foldl (fun acc f => process_frame acc f.landmarks f.angles f.sel) d

/-- `detect_jumping_jack` folded over a both-shoulder angle stream, counting
completed reps. -/
def run_jumping_jack (st : JumpingJackState) (frames : List (ℚ × ℚ)) : JumpingJackState × Nat :=
  frames.foldl
    (fun acc f =>
      let r := detect_jumping_jack acc.1 f.1 f.2
      (r.1, acc.2 + (if r.2 then 1 else 0)))
    (st, 0)

/-- A 2D point as `calculate_angle` consumes it (`point.x`, `point.y`);
coordinates are rationals (the landmark positions), the angle itself is
real-valued. -/
structure Point where
  x : ℚ
  y : ℚ
deriving DecidableEq, Repr

/-- The vector `a - b` of the source (`ba = a - b`, `bc = c - b`). -/
def vsub (p q : Point) : ℚ × ℚ := (p.x - q.x, p.y - q.y)

/-- `np.dot(ba, bc)`. -/
def dotQ (u v : ℚ × ℚ) : ℚ := u.1 * v.1 + u.2 * v.2

/-- The squared Euclidean norm; `np.linalg.norm` is its square root. -/
def normSq (u : ℚ × ℚ) : ℚ := u.1 * u.1 + u.2 * u.2

/-- `np.linalg.norm(u)` as a real number. -/
noncomputable def normR (u : ℚ × ℚ) : ℝ := Real.sqrt ((normSq u : ℝ))

/-- `np.clip(x, lo, hi)`. -/
noncomputable def clipR (lo hi x : ℝ) : ℝ := max lo (min x hi)

/-- The `cosine_angle` intermediate of `calculate_angle`:
`np.dot(ba, bc) / (np.linalg.norm(ba) * np.linalg.norm(bc) + 1e-6)`. -/
noncomputable def cosine_angle (p1 p2 p3 : Point) : ℝ :=
  ((dotQ (vsub p1 p2) (vsub p3 p2) : ℚ) : ℝ) /
    (normR (vsub p1 p2) * normR (vsub p3 p2) + 1 / 1000000)

/-- `calculate_angle`: `np.degrees(np.arccos(np.clip(cosine_angle, -1, 1)))`. -/
noncomputable def calculate_angle (p1 p2 p3 : Point) : ℝ :=
  Real.arccos (clipR (-1) 1 (cosine_angle p1 p2 p3)) * 180 / Real.pi

/-- A landmark list in which all 33 pose landmarks are present and fully
visible. -/
def fullVis : List Landmark := List.replicate 33 ⟨0, 0, some 1⟩

/-- A selector file whose `"target"` field names squats. -/
def selSquats : SelectorRead := .ok "squats"

/-- A freshly initialised detector locked on the given target exercise. -/
def initialDetector (e : ExerciseType) : ExerciseDetector :=
  ⟨e, .neutral, .standing, false, false, ⟨0, 0, 0⟩, 0, 0, 0⟩

/-- A fully visible squat frame whose two knee angles both equal `a`, so the
average knee angle seen by `detect_squat` is `a`. -/
def mkSquatFrame (a : ℚ) : FrameInput :=
  ⟨fullVis, ⟨150, 150, a, a⟩, selSquats⟩

/-- A detector mid high-knees cycle: both legs flagged up. -/
def bothUpDetector : ExerciseDetector :=
  ⟨.high_knees, .neutral, .standing, true, true, ⟨0, 0, 0⟩, 0, 0, 0⟩

/-- A detector mid squat cycle (state `Squatting`). -/
def midSquatDetector : ExerciseDetector :=
  ⟨.squat, .neutral, .squatting, false, false, ⟨0, 0, 0⟩, 0, 0, 0⟩

/-- A detector mid squat cycle, one frame before the periodic selector
reload fires. -/
def preReloadDetector : ExerciseDetector :=
  ⟨.squat, .neutral, .squatting, false, false, ⟨0, 0, 0⟩, 0, 29, 0⟩

/-- A detector in cooldown (5 frames remaining). -/
def coolingDetector : ExerciseDetector :=
  ⟨.squat, .neutral, .standing, false, false, ⟨0, 0, 0⟩, 5, 0, 0⟩

/-- A detector whose reload counter has just reached the reload interval. -/
def reloadDueDetector : ExerciseDetector :=
  ⟨.high_knees, .arms_up, .squatting, true, true, ⟨0, 0, 0⟩, 0, 30, 0⟩

lemma calculate_angle_nonneg (p1 p2 p3 : Point) : 0 ≤ calculate_angle p1 p2 p3 := by
  unfold calculate_angle
  have h1 := Real.arccos_nonneg (clipR (-1) 1 (cosine_angle p1 p2 p3))
  have hpi := Real.pi_pos
  positivity

lemma calculate_angle_le_180 (p1 p2 p3 : Point) : calculate_angle p1 p2 p3 ≤ 180 := by
  unfold calculate_angle
  have h2 := Real.arccos_le_pi (clipR (-1) 1 (cosine_angle p1 p2 p3))
  have hpi := Real.pi_pos
  have hstep : Real.arccos (clipR (-1) 1 (cosine_angle p1 p2 p3)) * 180 / Real.pi
      ≤ Real.pi * 180 / Real.pi :=
    (div_le_div_iff_of_pos_right hpi).mpr (mul_le_mul_of_nonneg_right h2 (by norm_num))
  calc Real.arccos (clipR (-1) 1 (cosine_angle p1 p2 p3)) * 180 / Real.pi
      ≤ Real.pi * 180 / Real.pi := hstep
    _ = 180 := by
        rw [mul_comm]
        exact mul_div_assoc 180 Real.pi Real.pi ▸ by
          rw [div_self Real.pi_ne_zero, mul_one]

lemma dotQ_comm (u v : ℚ × ℚ) : dotQ u v = dotQ v u := by
  unfold dotQ; ring

lemma cosine_angle_symm (p1 p2 p3 : Point) :
    cosine_angle p1 p2 p3 = cosine_angle p3 p2 p1 := by
  unfold cosine_angle
  rw [dotQ_comm, mul_comm (normR (vsub p1 p2))]

lemma calculate_angle_symm (p1 p2 p3 : Point) :
    calculate_angle p1 p2 p3 = calculate_angle p3 p2 p1 := by
  unfold calculate_angle
  rw [cosine_angle_symm]

lemma denominator_pos (p1 p2 p3 : Point) :
    0 < normR (vsub p1 p2) * normR (vsub p3 p2) + 1 / 1000000 := by
  have h1 : 0 ≤ normR (vsub p1 p2) := Real.sqrt_nonneg _
  have h2 : 0 ≤ normR (vsub p3 p2) := Real.sqrt_nonneg _
  have h3 : 0 ≤ normR (vsub p1 p2) * normR (vsub p3 p2) := mul_nonneg h1 h2
  linarith

lemma clipR_mem (x : ℝ) : -1 ≤ clipR (-1) 1 x ∧ clipR (-1) 1 x ≤ 1 := by
  unfold clipR
  exact ⟨le_max_left _ _, max_le (by norm_num) (min_le_right _ _)⟩

lemma calculate_angle_coincident (p : Point) : calculate_angle p p p = 90 := by
  unfold calculate_angle cosine_angle
  have hdot : dotQ (vsub p p) (vsub p p) = 0 := by
    unfold dotQ vsub; ring
  rw [hdot]
  have hclip : clipR (-1) 1 (((0 : ℚ) : ℝ) / (normR (vsub p p) * normR (vsub p p) + 1 / 1000000)) = 0 := by
    unfold clipR
    norm_num
  rw [hclip, Real.arccos_zero]
  field_simp
  ring

lemma detect_squat_standing_no_rep (l r : ℚ) : (detect_squat .standing l r).2 = false := by
  unfold detect_squat
  dsimp only
  split_ifs with h1 h2
  · rfl
  · exact absurd h2.1 (by simp)
  · rfl

lemma detect_high_knees_both_cycle_down (la ra : ℚ) (hla : 140 < la) (hra : 140 < ra) :
    detect_high_knees true true la ra = (false, false, true) := by
  unfold detect_high_knees
  rw [if_neg (by simp), if_pos ⟨hla, rfl⟩, if_neg (by simp), if_pos ⟨hra, rfl⟩]
  rfl

lemma classify_step_warning_counter (d : ExerciseDetector) (ang : FrameAngles) :
    (classify_step d ang).warning_counter = d.warning_counter := by
  unfold classify_step count_rep
  rcases hd : d.target_exercise <;> simp only [] <;> split_ifs <;> rfl

lemma reload_step_skip (d : ExerciseDetector) (sel : SelectorRead)
    (h : d.reload_counter < RELOAD_INTERVAL) : reload_step d sel = d := by
  unfold reload_step
  rw [if_neg (by omega)]

lemma process_frame_cooldown (d : ExerciseDetector) (lm : List Landmark)
    (ang : FrameAngles) (sel : SelectorRead) (h : 0 < d.cooldown_frames) :
    process_frame d lm ang sel = { d with cooldown_frames := d.cooldown_frames - 1 } := by
  unfold process_frame
  rw [if_pos h]

lemma process_frame_active (d : ExerciseDetector) (lm : List Landmark)
    (ang : FrameAngles) (sel : SelectorRead) (h : d.cooldown_frames = 0) :
    process_frame d lm ang sel
      = gate_step (reload_step { d with reload_counter := d.reload_counter + 1 } sel) lm ang := by
  unfold process_frame
  rw [if_neg (by omega)]

lemma gate_step_invisible (d : ExerciseDetector) (lm : List Landmark) (ang : FrameAngles)
    (req : List Nat) (hreq : required_landmarks d.target_exercise = some req)
    (hvis : (check_landmarks_visible lm req (1/2)).1 = false) :
    gate_step d lm ang
      = { d with warning_counter :=
            if d.warning_counter + 1 ≥ WARNING_INTERVAL then 0 else d.warning_counter + 1 } := by
  unfold gate_step
  rw [hreq]
  dsimp only
  rw [if_pos hvis]
  split_ifs <;> rfl

lemma gate_step_visible (d : ExerciseDetector) (lm : List Landmark) (ang : FrameAngles)
    (req : List Nat) (hreq : required_landmarks d.target_exercise = some req)
    (hvis : (check_landmarks_visible lm req (1/2)).1 = true) :
    gate_step d lm ang = classify_step { d with warning_counter := 0 } ang := by
  unfold gate_step
  rw [hreq]
  dsimp only
  rw [if_neg (by rw [hvis]; simp)]

lemma detect_jumping_jack_neutral_no_rep (l r : ℚ) :
    (detect_jumping_jack .neutral l r).2 = false := by
  unfold detect_jumping_jack
  split_ifs with h1 h2
  · rfl
  · exact absurd h2.1 (by simp)
  · rfl

lemma detect_jumping_jack_arms_up_eq_iff (l r : ℚ) :
    detect_jumping_jack .arms_up l r = (.neutral, true) ↔ 140 < l ∧ 140 < r := by
  unfold detect_jumping_jack
  rw [if_neg (by simp)]
  by_cases h : 140 < l ∧ 140 < r
  · rw [if_pos ⟨rfl, h.1, h.2⟩]
    exact ⟨fun _ => h, fun _ => rfl⟩
  · rw [if_neg (fun hc => h ⟨hc.2.1, hc.2.2⟩)]
    constructor
    · intro he
      injection he with hA hB
      exact absurd hA (by simp)
    · intro hx
      exact absurd hx h

lemma detect_jumping_jack_rep_iff (st : JumpingJackState) (l r : ℚ) :
    (detect_jumping_jack st l r).2 = true ↔ st = .arms_up ∧ 140 < l ∧ 140 < r := by
  cases st <;> unfold detect_jumping_jack <;> split_ifs <;> simp_all

lemma landmark_missing_iff (lm : List Landmark) (thr : ℚ) (idx : Nat) :
    landmark_missing lm thr idx = true ↔
      lm.length ≤ idx ∨
        ∃ h : idx < lm.length, ∃ v, (lm.get ⟨idx, h⟩).visibility = some v ∧ v < thr := by
  unfold landmark_missing
  by_cases h : idx < lm.length
  · rw [dif_pos h]
    rcases hv : (lm.get ⟨idx, h⟩).visibility with _ | v
    · constructor
      · intro hfalse
        exact Bool.noConfusion hfalse
      · rintro (hle | ⟨h2, v2, hvis2, hlt2⟩)
        · exact absurd hle (by omega)
        · rw [show (⟨idx, h2⟩ : Fin lm.length) = ⟨idx, h⟩ from rfl, hv] at hvis2
          exact Option.noConfusion hvis2
    · constructor
      · intro hd
        exact Or.inr ⟨h, v, hv, of_decide_eq_true hd⟩
      · rintro (hle | ⟨h2, v2, hvis2, hlt2⟩)
        · exact absurd hle (by omega)
        · rw [show (⟨idx, h2⟩ : Fin lm.length) = ⟨idx, h⟩ from rfl, hv] at hvis2
          injection hvis2 with he
          exact decide_eq_true (by rw [he]; exact hlt2)
  · rw [dif_neg h]
    constructor
    · intro _
      exact Or.inl (by omega)
    · intro _
      rfl

lemma check_landmarks_visible_false_iff (lm : List Landmark) (req : List Nat) (thr : ℚ) :
    (check_landmarks_visible lm req thr).1 = false ↔
      ∃ idx ∈ req, landmark_missing lm thr idx = true := by
  unfold check_landmarks_visible
  dsimp only
  rw [List.isEmpty_eq_false]
  rw [ne_eq, List.map_eq_nil_iff, List.filter_eq_nil_iff]
  push_neg
  constructor
  · rintro ⟨idx, hmem, hp⟩
    exact ⟨idx, hmem, by simpa using hp⟩
  · rintro ⟨idx, hmem, hp⟩
    exact ⟨idx, hmem, by simpa using hp⟩

/-- C2 counterexample: with the target exercise previously loaded as High
Knees, a failed selector read does not keep that value — the detector
switches to Squat. -/
theorem c2_counterexample :
    (load_target_exercise bothUpDetector .failure).target_exercise
      ≠ bothUpDetector.target_exercise := by
  decide

/-- C2 (amended): if reading the active-exercise selector fails, the
`except` handler logs the error and sets the target exercise to the default
Squat, for every prior value — the previous selector value is retained only
when it was already Squat. -/
theorem c2_selector_failure_sets_default (d : ExerciseDetector) :
    (load_target_exercise d .failure).target_exercise = ExerciseType.squat :=
  rfl

/-- C4: with target Squat, state Standing and counters all zero, the
five-frame average-knee-angle sequence 170, 115, 110, 165, 170 (all joints
visible) yields exactly one squat rep and final counters
`{jumping_jacks := 0, squats := 1, high_knees := 0}`; the sequence
170, 130, 130, 165, 170, which never crosses the 120° squatting threshold,
yields zero reps. -/
theorem c4_squat_end_to_end :
    (run_frames (initialDetector .squat)
        ([170, 115, 110, 165, 170].map mkSquatFrame)).rep_counts = ⟨0, 1, 0⟩ ∧
    (run_frames (initialDetector .squat)
        ([170, 130, 130, 165, 170].map mkSquatFrame)).rep_counts = ⟨0, 0, 0⟩ := by
  constructor
  · decide
  · decide

/-- C5: the both-sides shoulder-angle sequence 150°, 90°, 150° yields
exactly one jumping-jack rep while 150°, 110°, 150° (which never goes below
100°) yields zero; a rep is returned exactly on the ArmsUp→Neutral
transition (state ArmsUp with both angles above 140°), and the step from
Neutral never reports a rep. -/
theorem c5_jumping_jack_rep_on_down_edge :
    (run_jumping_jack .neutral [(150, 150), (90, 90), (150, 150)]).2 = 1 ∧
    (run_jumping_jack .neutral [(150, 150), (110, 110), (150, 150)]).2 = 0 ∧
    (∀ l r : ℚ, (detect_jumping_jack .neutral l r).2 = false) ∧
    (∀ l r : ℚ, detect_jumping_jack .arms_up l r = (.neutral, true) ↔ 140 < l ∧ 140 < r) ∧
    (∀ (st : JumpingJackState) (l r : ℚ),
        (detect_jumping_jack st l r).2 = true ↔ st = .arms_up ∧ 140 < l ∧ 140 < r) :=
  ⟨by decide, by decide, detect_jumping_jack_neutral_no_rep,
    detect_jumping_jack_arms_up_eq_iff, detect_jumping_jack_rep_iff⟩

/-- C8: for non-degenerate inputs (outer points distinct from the vertex)
the angle lies in [0, 180] degrees and is symmetric in its outer arguments;
determinism is intrinsic to the embedding (`calculate_angle` is a
function). -/
theorem c8_angle_range_and_symmetry (a b c : Point) (_hab : a ≠ b) (_hcb : c ≠ b) :
    (0 ≤ calculate_angle a b c ∧ calculate_angle a b c ≤ 180) ∧
    calculate_angle a b c = calculate_angle c b a :=
  ⟨⟨calculate_angle_nonneg a b c, calculate_angle_le_180 a b c⟩, calculate_angle_symm a b c⟩

/-- C8 witness: the theorem applied at a = (1,0), b = (0,0), c = (0,1). -/
theorem c8_angle_range_and_symmetry_witness :
    ((⟨1, 0⟩ : Point) ≠ ⟨0, 0⟩ ∧ (⟨0, 1⟩ : Point) ≠ ⟨0, 0⟩) ∧
    ((0 ≤ calculate_angle ⟨1, 0⟩ ⟨0, 0⟩ ⟨0, 1⟩ ∧ calculate_angle ⟨1, 0⟩ ⟨0, 0⟩ ⟨0, 1⟩ ≤ 180) ∧
      calculate_angle ⟨1, 0⟩ ⟨0, 0⟩ ⟨0, 1⟩ = calculate_angle ⟨0, 1⟩ ⟨0, 0⟩ ⟨1, 0⟩) :=
  ⟨⟨by decide, by decide⟩,
    c8_angle_range_and_symmetry ⟨1, 0⟩ ⟨0, 0⟩ ⟨0, 1⟩ (by decide) (by decide)⟩

/-- C9: the angle computation is total on every input, degenerate ones
included: the ε = 1e-6 term keeps the denominator strictly positive, the
clamp keeps the arccos argument inside [-1, 1], and with all three points
coincident (both difference vectors zero) the function still returns a
value, namely 90°. -/
theorem c9_angle_total_on_degenerate_input :
    (∀ p1 p2 p3 : Point,
        0 < normR (vsub p1 p2) * normR (vsub p3 p2) + 1 / 1000000 ∧
        -1 ≤ clipR (-1) 1 (cosine_angle p1 p2 p3) ∧
        clipR (-1) 1 (cosine_angle p1 p2 p3) ≤ 1) ∧
    ∀ p : Point, calculate_angle p p p = 90 :=
  ⟨fun p1 p2 p3 =>
      ⟨denominator_pos p1 p2 p3, (clipR_mem _).1, (clipR_mem _).2⟩,
    calculate_angle_coincident⟩

/-- C10: a required landmark that is present but has no visibility
attribute is never counted as missing — the loop body flags an index
exactly when it is past the end of the landmark list or the landmark has a
visibility value below the threshold, and the frame is insufficiently
visible exactly when some required index is flagged. -/
theorem c10_visibility_attribute_optional (lm : List Landmark) (req : List Nat) (thr : ℚ) :
    ((check_landmarks_visible lm req thr).1 = false ↔
        ∃ idx ∈ req, landmark_missing lm thr idx = true) ∧
    ∀ idx : Nat, landmark_missing lm thr idx = true ↔
        lm.length ≤ idx ∨
          ∃ h : idx < lm.length, ∃ v, (lm.get ⟨idx, h⟩).visibility = some v ∧ v < thr :=
  ⟨check_landmarks_visible_false_iff lm req thr, landmark_missing_iff lm thr⟩

/-- C1 counterexample: target High Knees, no cooldown, all joints visible,
both was-up flags set, both knee angles 150° > 140°: both legs complete
their cycle in this frame, yet the high_knees counter becomes 1, not 2 —
the claim's increment-by-two is false. -/
theorem c1_counterexample :
    bothUpDetector.left_knee_was_up = true ∧
    bothUpDetector.right_knee_was_up = true ∧
    ((150 : ℚ) > 140) ∧
    (process_frame bothUpDetector fullVis ⟨150, 150, 150, 150⟩ (.ok "high_knees")).rep_counts.high_knees
      ≠ bothUpDetector.rep_counts.high_knees + 2 := by
  refine ⟨rfl, rfl, by norm_num, ?_⟩
  decide

lemma classify_step_high_knees_rep (d : ExerciseDetector) (lsa rsa la ra : ℚ)
    (htarget : d.target_exercise = .high_knees)
    (hleft : d.left_knee_was_up = true) (hright : d.right_knee_was_up = true)
    (hla : 140 < la) (hra : 140 < ra) :
    (classify_step d ⟨lsa, rsa, la, ra⟩).rep_counts.high_knees
        = d.rep_counts.high_knees + 1 ∧
    (classify_step d ⟨lsa, rsa, la, ra⟩).left_knee_was_up = false ∧
    (classify_step d ⟨lsa, rsa, la, ra⟩).right_knee_was_up = false := by
  unfold classify_step
  rw [htarget]
  dsimp only
  rw [hleft, hright, detect_high_knees_both_cycle_down la ra hla hra]
  dsimp only
  rw [if_pos rfl]
  unfold count_rep RepCounts.increment
  dsimp only
  exact ⟨rfl, rfl, rfl⟩

/-- C1 (amended): with target High Knees, no cooldown, the periodic
selector reload not firing this frame, and the required joints visible, a
frame in which both legs complete their Up→Down cycle (both was-up flags
set and both knee angles above 140°) increments the high_knees rep counter
by exactly one — the source reports a single per-frame rep-completed flag,
so the two simultaneous per-leg completions collapse into one increment —
and clears both was-up flags. -/
theorem c1_high_knees_same_frame_single_increment
    (d : ExerciseDetector) (lm : List Landmark) (lsa rsa la ra : ℚ) (sel : SelectorRead)
    (htarget : d.target_exercise = .high_knees)
    (hcool : d.cooldown_frames = 0)
    (hreload : d.reload_counter + 1 < RELOAD_INTERVAL)
    (hleft : d.left_knee_was_up = true)
    (hright : d.right_knee_was_up = true)
    (hvis : (check_landmarks_visible lm
        [PoseLandmark.LEFT_HIP, PoseLandmark.RIGHT_HIP,
         PoseLandmark.LEFT_KNEE, PoseLandmark.RIGHT_KNEE,
         PoseLandmark.LEFT_ANKLE, PoseLandmark.RIGHT_ANKLE] (1/2)).1 = true)
    (hla : 140 < la) (hra : 140 < ra) :
    (process_frame d lm ⟨lsa, rsa, la, ra⟩ sel).rep_counts.high_knees
        = d.rep_counts.high_knees + 1 ∧
    (process_frame d lm ⟨lsa, rsa, la, ra⟩ sel).left_knee_was_up = false ∧
    (process_frame d lm ⟨lsa, rsa, la, ra⟩ sel).right_knee_was_up = false := by
  have h1 := process_frame_active d lm ⟨lsa, rsa, la, ra⟩ sel hcool
  have h2 : reload_step { d with reload_counter := d.reload_counter + 1 } sel
      = { d with reload_counter := d.reload_counter + 1 } :=
    reload_step_skip _ sel hreload
  have h3 : gate_step { d with reload_counter := d.reload_counter + 1 } lm ⟨lsa, rsa, la, ra⟩
      = classify_step { d with reload_counter := d.reload_counter + 1, warning_counter := 0 }
          ⟨lsa, rsa, la, ra⟩ := by
    apply gate_step_visible
    · show required_landmarks d.target_exercise = _
      rw [htarget]
      rfl
    · exact hvis
  rw [h1, h2, h3]
  exact classify_step_high_knees_rep _ lsa rsa la ra htarget hleft hright hla hra

/-- C1 witness: the amended theorem applied to `bothUpDetector`, fully
visible joints, both knee angles 150°. -/
theorem c1_high_knees_same_frame_single_increment_witness :
    (bothUpDetector.target_exercise = .high_knees ∧
     bothUpDetector.cooldown_frames = 0 ∧
     bothUpDetector.reload_counter + 1 < RELOAD_INTERVAL ∧
     bothUpDetector.left_knee_was_up = true ∧
     bothUpDetector.right_knee_was_up = true ∧
     (check_landmarks_visible fullVis
        [PoseLandmark.LEFT_HIP, PoseLandmark.RIGHT_HIP,
         PoseLandmark.LEFT_KNEE, PoseLandmark.RIGHT_KNEE,
         PoseLandmark.LEFT_ANKLE, PoseLandmark.RIGHT_ANKLE] (1/2)).1 = true ∧
     (140 : ℚ) < 150) ∧
    ((process_frame bothUpDetector fullVis ⟨150, 150, 150, 150⟩ selSquats).rep_counts.high_knees
        = bothUpDetector.rep_counts.high_knees + 1 ∧
     (process_frame bothUpDetector fullVis ⟨150, 150, 150, 150⟩ selSquats).left_knee_was_up = false ∧
     (process_frame bothUpDetector fullVis ⟨150, 150, 150, 150⟩ selSquats).right_knee_was_up = false) :=
  ⟨⟨rfl, rfl, by decide, rfl, rfl, by decide, by decide⟩,
    c1_high_knees_same_frame_single_increment bothUpDetector fullVis 150 150 150 150 selSquats
      rfl rfl (by decide) rfl rfl (by decide) (by decide) (by decide)⟩

/-- C3: when the periodic reload is due and the selector read yields a
target different from the current one, the reload step resets every
per-exercise state field to its initial value (jumping-jack state Neutral,
squat state Standing, both high-knees flags cleared); consequently a squat
machine left mid-cycle cannot report a rep without a fresh full cycle,
because from Standing the squat detector never completes a rep in one
step. -/
theorem c3_selector_change_resets_states (d : ExerciseDetector) (sel : SelectorRead)
    (hdue : RELOAD_INTERVAL ≤ d.reload_counter)
    (hchange : (load_target_exercise d sel).target_exercise ≠ d.target_exercise) :
    ((reload_step d sel).jumping_jack_state = .neutral ∧
     (reload_step d sel).squat_state = .standing ∧
     (reload_step d sel).left_knee_was_up = false ∧
     (reload_step d sel).right_knee_was_up = false) ∧
    ∀ l r : ℚ, (detect_squat (reload_step d sel).squat_state l r).2 = false := by
  have hstep : reload_step d sel
      = { reset_exercise_states (load_target_exercise d sel) with reload_counter := 0 } := by
    unfold reload_step
    rw [if_pos hdue]
    dsimp only
    rw [if_pos (Ne.symm hchange)]
  rw [hstep]
  exact ⟨⟨rfl, rfl, rfl, rfl⟩, fun l r => detect_squat_standing_no_rep l r⟩

/-- C3 witness: the theorem applied to a detector mid high-knees/squat
cycle whose reload counter has reached the interval, the selector file now
naming squats. -/
theorem c3_selector_change_resets_states_witness :
    (RELOAD_INTERVAL ≤ reloadDueDetector.reload_counter ∧
     (load_target_exercise reloadDueDetector selSquats).target_exercise
        ≠ reloadDueDetector.target_exercise) ∧
    (((reload_step reloadDueDetector selSquats).jumping_jack_state = .neutral ∧
      (reload_step reloadDueDetector selSquats).squat_state = .standing ∧
      (reload_step reloadDueDetector selSquats).left_knee_was_up = false ∧
      (reload_step reloadDueDetector selSquats).right_knee_was_up = false) ∧
     ∀ l r : ℚ,
        (detect_squat (reload_step reloadDueDetector selSquats).squat_state l r).2 = false) :=
  ⟨⟨by decide, by decide⟩,
    c3_selector_change_resets_states reloadDueDetector selSquats (by decide) (by decide)⟩

/-- C6 counterexample: a completed squat rep arms the cooldown with 10
frames (`COOLDOWN_DURATION`), not the claimed 7. -/
theorem c6_counterexample :
    (process_frame midSquatDetector fullVis ⟨150, 150, 170, 170⟩ selSquats).cooldown_frames = 10 ∧
    (process_frame midSquatDetector fullVis ⟨150, 150, 170, 170⟩ selSquats).cooldown_frames ≠ 7 := by
  constructor
  · decide
  · decide

/-- C6 (amended): each counted rep sets the cooldown counter to 3 frames
when the target exercise is High Knees and to `COOLDOWN_DURATION` = 10
frames for the other exercises; while the counter is positive a processed
frame only decrements it once and does nothing else (no classification). -/
theorem c6_cooldown_values_and_decrement :
    (∀ (d : ExerciseDetector) (lm : List Landmark) (ang : FrameAngles) (sel : SelectorRead),
        0 < d.cooldown_frames →
          process_frame d lm ang sel = { d with cooldown_frames := d.cooldown_frames - 1 }) ∧
    (∀ d : ExerciseDetector,
        (count_rep d).cooldown_frames
          = if d.target_exercise = .high_knees then 3 else COOLDOWN_DURATION) ∧
    COOLDOWN_DURATION = 10 := by
  refine ⟨fun d lm ang sel h => process_frame_cooldown d lm ang sel h, fun d => ?_, rfl⟩
  unfold count_rep
  rfl

/-- C6 witness: the first conjunct applied to a detector with 5 cooldown
frames remaining — the frame only decrements the counter. -/
theorem c6_cooldown_values_and_decrement_witness :
    0 < coolingDetector.cooldown_frames ∧
    process_frame coolingDetector fullVis ⟨150, 150, 170, 170⟩ selSquats
      = { coolingDetector with cooldown_frames := coolingDetector.cooldown_frames - 1 } :=
  ⟨by decide,
    c6_cooldown_values_and_decrement.1 coolingDetector fullVis ⟨150, 150, 170, 170⟩ selSquats
      (by decide)⟩

/-- C7 counterexample: a frame with an empty landmark list (every required
joint absent) processed exactly when the periodic reload fires with a
changed selector still resets the squat state from Squatting to Standing —
a per-exercise state field changes on an insufficient-visibility frame,
contradicting the claim as stated. -/
theorem c7_counterexample :
    (check_landmarks_visible ([] : List Landmark)
        [PoseLandmark.LEFT_HIP, PoseLandmark.RIGHT_HIP,
         PoseLandmark.LEFT_KNEE, PoseLandmark.RIGHT_KNEE,
         PoseLandmark.LEFT_ANKLE, PoseLandmark.RIGHT_ANKLE] (1/2)).1 = false ∧
    preReloadDetector.squat_state = .squatting ∧
    (process_frame preReloadDetector [] ⟨0, 0, 0, 0⟩ (.ok "jumping_jacks")).squat_state
      = .standing := by
  refine ⟨by decide, rfl, by decide⟩

/-- C7 (amended): for a frame with no active cooldown in which the periodic
selector reload does not fire, if some joint required by the active
exercise is absent or has visibility below 0.5, then no classifier runs and
no per-exercise state field or rep counter changes — the frame only
increments the reload counter and advances the warning counter, which wraps
to 0 on reaching the 30-frame warning interval, so the insufficient-
visibility notice is emitted only on every 30th consecutive such frame;
when instead all required joints are visible the warning counter resets to
0.  (When the reload fires in the same frame with a changed selector, the
per-exercise state fields are additionally reset by the switch itself.) -/
theorem c7_visibility_gate (d : ExerciseDetector) (lm : List Landmark)
    (ang : FrameAngles) (sel : SelectorRead) (req : List Nat)
    (hcool : d.cooldown_frames = 0)
    (hreload : d.reload_counter + 1 < RELOAD_INTERVAL)
    (hreq : required_landmarks d.target_exercise = some req) :
    ((check_landmarks_visible lm req (1/2)).1 = false →
        process_frame d lm ang sel
          = { d with
                reload_counter := d.reload_counter + 1,
                warning_counter :=
                  if d.warning_counter + 1 ≥ WARNING_INTERVAL then 0
                  else d.warning_counter + 1 }) ∧
    ((check_landmarks_visible lm req (1/2)).1 = true →
        (process_frame d lm ang sel).warning_counter = 0) := by
  have h1 := process_frame_active d lm ang sel hcool
  have h2 : reload_step { d with reload_counter := d.reload_counter + 1 } sel
      = { d with reload_counter := d.reload_counter + 1 } :=
    reload_step_skip _ sel hreload
  constructor
  · intro hvis
    rw [h1, h2]
    exact gate_step_invisible { d with reload_counter := d.reload_counter + 1 } lm ang
      req hreq hvis
  · intro hvis
    have h3 := gate_step_visible { d with reload_counter := d.reload_counter + 1 } lm ang
      req hreq hvis
    rw [h1, h2, h3, classify_step_warning_counter]

/-- C7 witness: the invisible branch applied to a fresh squat detector and
an empty landmark list. -/
theorem c7_visibility_gate_witness :
    ((initialDetector .squat).cooldown_frames = 0 ∧
     (initialDetector .squat).reload_counter + 1 < RELOAD_INTERVAL ∧
     required_landmarks (initialDetector .squat).target_exercise
        = some [PoseLandmark.LEFT_HIP, PoseLandmark.RIGHT_HIP,
                PoseLandmark.LEFT_KNEE, PoseLandmark.RIGHT_KNEE,
                PoseLandmark.LEFT_ANKLE, PoseLandmark.RIGHT_ANKLE] ∧
     (check_landmarks_visible ([] : List Landmark)
        [PoseLandmark.LEFT_HIP, PoseLandmark.RIGHT_HIP,
         PoseLandmark.LEFT_KNEE, PoseLandmark.RIGHT_KNEE,
         PoseLandmark.LEFT_ANKLE, PoseLandmark.RIGHT_ANKLE] (1/2)).1 = false) ∧
    process_frame (initialDetector .squat) [] ⟨0, 0, 0, 0⟩ selSquats
      = { (initialDetector .squat) with
            reload_counter := (initialDetector .squat).reload_counter + 1,
            warning_counter :=
              if (initialDetector .squat).warning_counter + 1 ≥ WARNING_INTERVAL then 0
              else (initialDetector .squat).warning_counter + 1 } :=
  ⟨⟨rfl, by decide, rfl, by decide⟩,
    (c7_visibility_gate (initialDetector .squat) [] ⟨0, 0, 0, 0⟩ selSquats
        [PoseLandmark.LEFT_HIP, PoseLandmark.RIGHT_HIP,
         PoseLandmark.LEFT_KNEE, PoseLandmark.RIGHT_KNEE,
         PoseLandmark.LEFT_ANKLE, PoseLandmark.RIGHT_ANKLE]
        rfl (by decide) rfl).1 (by decide)⟩
